import Mathlib

/-!
Shallow embedding of the 보여dream nightmare-reconstruction pipeline
(src/app.py and src/services/*, src/core/*), together with theorems that
settle the frozen claims about its specification.

External calls (OpenAI chat/moderation/whisper/DALL-E, FAISS retrieval) are
modelled as oracle parameters: the embedded functions receive the provider
response as an explicit argument and perform exactly the processing the
source performs on it.
-/

/-- A JSON value, the shape in which LLM structured output reaches the
pydantic parsers (`PydanticOutputParser`).  Numbers are modelled as
rationals; no arithmetic beyond comparison and display is performed on
them by the source. -/
inductive Json where
  | null
  | bool (b : Bool)
  | num (q : ℚ)
  | str (s : String)
  | arr (xs : List Json)
  | obj (fields : List (String × Json))

/-- Schema `KeywordMapping` of src/services/dream_analyzer_service.py
(lines 12-14): two required string fields.  The Korean field descriptions
are documentation only; pydantic enforces nothing beyond presence/type. -/
structure KeywordMapping where
  original : String
  transformed : String
deriving DecidableEq

/-- Schema `ReconstructionOutput` of src/services/dream_analyzer_service.py
(lines 17-20).  The description of `keyword_mappings` asks for 3-5 entries,
but `Field(description=...)` imposes no length constraint. -/
structure ReconstructionOutput where
  reconstructed_prompt : String
  transformation_summary : String
  keyword_mappings : List KeywordMapping
deriving DecidableEq

/-- Schema `Emotion` of src/services/report_generator_service.py
(lines 11-13).  The description says the score lies in [0.0, 1.0], but no
range validator is attached to the float field. -/
structure Emotion where
  emotion : String
  score : ℚ
deriving DecidableEq

/-- Schema `Report` of src/services/report_generator_service.py
(lines 16-19): emotions, keywords, analysis_summary.  `.dict()` on a
validated instance returns exactly these fields, so the structure also
stands for the dictionary the service returns. -/
structure Report where
  emotions : List Emotion
  keywords : List String
  analysis_summary : String
deriving DecidableEq

/-- Extract a JSON string (pydantic `str` field acceptance, coercion rules
for non-string primitives elided: the claims at issue concern absent
length/range/identity validators, not type coercion). -/
def asStr : Json → Option String
  | .str s => some s
  | _ => none

/-- Extract a JSON number as a rational (pydantic `float` field). -/
def asNum : Json → Option ℚ
  | .num q => some q
  | _ => none

/-- Parse one `KeywordMapping` object: both string fields required, nothing
else checked. -/
def parseKeywordMapping : Json → Option KeywordMapping
  | .obj fs =>
      match (fs.lookup "original").bind asStr, (fs.lookup "transformed").bind asStr with
      | some o, some t => some ⟨o, t⟩
      | _, _ => none
  | _ => none

/-- Parse a list of keyword mappings element-wise; any malformed element
fails the whole parse (pydantic list-of-model semantics). -/
def parseMappingList : List Json → Option (List KeywordMapping)
  | [] => some []
  | j :: js =>
      match parseKeywordMapping j, parseMappingList js with
      | some m, some ms => some (m :: ms)
      | _, _ => none

/-- Parse a `ReconstructionOutput`: three required fields, the mapping list
of any length (no 3-5 bound, no identity-mapping rejection). -/
def parseReconstructionOutput : Json → Option ReconstructionOutput
  | .obj fs =>
      match (fs.lookup "reconstructed_prompt").bind asStr,
            (fs.lookup "transformation_summary").bind asStr,
            fs.lookup "keyword_mappings" with
      | some p, some s, some (.arr js) =>
          match parseMappingList js with
          | some ms => some ⟨p, s, ms⟩
          | none => none
      | _, _, _ => none
  | _ => none

/-- Parse one `Emotion` object: a string label and a numeric score; no
range check and no non-emptiness check on the label. -/
def parseEmotion : Json → Option Emotion
  | .obj fs =>
      match (fs.lookup "emotion").bind asStr, (fs.lookup "score").bind asNum with
      | some l, some q => some ⟨l, q⟩
      | _, _ => none
  | _ => none

/-- Parse a list of emotions element-wise. -/
def parseEmotionList : List Json → Option (List Emotion)
  | [] => some []
  | j :: js =>
      match parseEmotion j, parseEmotionList js with
      | some e, some es => some (e :: es)
      | _, _ => none

/-- Parse a list of keyword strings element-wise. -/
def parseStringList : List Json → Option (List String)
  | [] => some []
  | j :: js =>
      match asStr j, parseStringList js with
      | some s, some ss => some (s :: ss)
      | _, _ => none

/-- Parse a `Report`: emotions list, keywords list, summary string.  There
is no constraint tying keywords to emotions and no value constraint. -/
def parseReport : Json → Option Report
  | .obj fs =>
      match fs.lookup "emotions", fs.lookup "keywords",
            (fs.lookup "analysis_summary").bind asStr with
      | some (.arr ejs), some (.arr kjs), some summ =>
          match parseEmotionList ejs, parseStringList kjs with
          | some es, some ks => some ⟨es, ks, summ⟩
          | _, _ => none
      | _, _, _ => none
  | _ => none

/-- Encode a keyword mapping as the JSON object the parser accepts. -/
def encodeMapping (m : KeywordMapping) : Json :=
  .obj [("original", .str m.original), ("transformed", .str m.transformed)]

/-- Encode a full reconstruction output as schema-conforming JSON. -/
def encodeRecon (o : ReconstructionOutput) : Json :=
  .obj [("reconstructed_prompt", .str o.reconstructed_prompt),
        ("transformation_summary", .str o.transformation_summary),
        ("keyword_mappings", .arr (o.keyword_mappings.map encodeMapping))]

/-- Encode an emotion as the JSON object the parser accepts. -/
def encodeEmotion (e : Emotion) : Json :=
  .obj [("emotion", .str e.emotion), ("score", .num e.score)]

/-- Encode a full report as schema-conforming JSON. -/
def encodeReport (r : Report) : Json :=
  .obj [("emotions", .arr (r.emotions.map encodeEmotion)),
        ("keywords", .arr (r.keywords.map Json.str)),
        ("analysis_summary", .str r.analysis_summary)]

/-- Outcome of the Whisper transcription call made inside
`STTService.transcribe_audio` (src/services/stt_service.py lines 19-58):
either the transcript text or one of the exceptions the method catches. -/
inductive STTOutcome where
  | ok (text : String)
  | fileNotFound
  | authError (msg : String)
  | rateLimitError (msg : String)
  | connectionError (msg : String)
  | otherError (msg : String)

/-- `STTService.transcribe_audio` (src/services/stt_service.py lines
19-58): every failure is caught and converted to a human-readable Korean
message, returned in place of the transcript; the method never raises. -/
def transcribe_audio : STTOutcome → String
  | .ok t => t
  | .fileNotFound => "오디오 파일을 찾을 수 없습니다."
  | .authError _ => "오류: OpenAI API 키가 잘못되었거나 유효하지 않습니다. 환경변수를 확인해주세요."
  | .rateLimitError _ => "오류: API 사용량 한도를 초과했습니다. 잠시 후 다시 시도하거나 플랜을 확인해주세요."
  | .connectionError _ => "오류: OpenAI 서버에 연결할 수 없습니다. 인터넷 연결을 확인해주세요."
  | .otherError e => "음성 변환 중 알 수 없는 오류가 발생했습니다: " ++ e

/-- Outcome of the OpenAI moderation call made inside
`ModerationService.check_text_safety` (src/services/moderation_service.py
lines 16-54): a result carrying the flagged bit and the names of the
flagged categories, or an exception raised by the call. -/
inductive ModOutcome where
  | ok (flagged : Bool) (categories : List String)
  | exn (msg : String)

/-- The dictionary `check_text_safety` returns.  The source also includes a
`details` entry (the raw `model_dump()` payload); the application never
reads it, so it is not modelled. -/
structure ModResult where
  flagged : Bool
  text : String
deriving DecidableEq

/-- `ModerationService.check_text_safety` (src/services/moderation_service.py
lines 16-54): a flagged result reports the violated categories, a clean
result reports safety, and any exception is caught and converted into a
flagged result carrying the error message (fail closed). -/
def check_text_safety : ModOutcome → ModResult
  | .ok true cats =>
      ⟨true, "입력된 내용이 안전 정책을 위반할 수 있습니다: " ++ String.intercalate ", " cats⟩
  | .ok false _ => ⟨false, "안전합니다."⟩
  | .exn e => ⟨true, "안전성 검사 중 오류가 발생했습니다: " ++ e⟩

/-- Outcome of the DALL-E 3 call inside
`ImageGeneratorService.generate_image_from_prompt`
(src/services/image_generator_service.py lines 15-50). -/
inductive ImgOutcome where
  | ok (url : String)
  | noData
  | apiError (status : Nat) (body : String)
  | exn (msg : String)

/-- `ImageGeneratorService.generate_image_from_prompt`
(src/services/image_generator_service.py lines 15-50): returns the image
URL on success and a Korean error string otherwise; never raises. -/
def generate_image_from_prompt : ImgOutcome → String
  | .ok url => url
  | .noData => "이미지 생성 실패: 유효한 이미지 URL을 받을 수 없습니다."
  | .apiError status body => "OpenAI API 오류 발생: " ++ toString status ++ " - " ++ body
  | .exn e => "이미지 생성 중 오류 발생: " ++ e

/-- Truncation toward zero, the semantics of Python `int()` applied to the
score percentage in the prompt builders. -/
def ratTrunc (q : ℚ) : ℤ := if 0 ≤ q then ⌊q⌋ else ⌈q⌉

/-- One entry of the emotion summary line both prompt builders format:
`"{emotion}: {int(score*100)}%"` (src/services/dream_analyzer_service.py
lines 45 and 88). -/
def emotion_summary (e : Emotion) : String :=
  e.emotion ++ ": " ++ toString (ratTrunc (e.score * 100)) ++ "%"

/-- Error message standing for the `OutputParserException` langchain raises
when a `PydanticOutputParser` rejects the completion. -/
def output_parse_failure_msg : String := "Failed to parse output from completion."

/-- Condensed text of the langchain format instructions injected into both
structured-output prompts; the exact wording is generated by the library
and has no bearing on any analysed behaviour. -/
def format_instructions : String :=
  "The output should be a JSON instance that conforms to the given schema."

/-- Condensed system prompt of `create_nightmare_prompt`
(src/services/dream_analyzer_service.py lines 49-68).  The full source text
is a fixed English instruction block interpolating the dream text, the
keyword list and the emotion breakdown; its wording does not affect any
analysed behaviour, the LLM being an external oracle. -/
def nightmare_system_prompt (dream_text keywords_info emotions_info : String) : String :=
  "You are a prompt artist specializing in psychological horror for DALL-E 3. "
    ++ "Nightmare Description (Korean): " ++ dream_text
    ++ " Identified Keywords: [" ++ keywords_info ++ "]"
    ++ " Emotion Breakdown: [" ++ emotions_info ++ "]"
    ++ " The final output must be a single detailed paragraph in English."

/-- Human message appended by the chat template of `create_nightmare_prompt`
(src/services/dream_analyzer_service.py line 73). -/
def nightmare_human_message : String :=
  "Generate a DALL-E 3 image prompt for the following nightmare."

/-- `DreamAnalyzerService.create_nightmare_prompt`
(src/services/dream_analyzer_service.py lines 33-79): formats the keyword
and emotion context, builds the system prompt and returns the raw LLM
completion (`StrOutputParser` is the identity on the text). -/
def create_nightmare_prompt (llm : String → String) (dream_text : String)
    (dream_report : Report) : String :=
  let keywords := dream_report.keywords
  let keywords_info :=
    if keywords.isEmpty then "No specific keywords provided."
    else String.intercalate ", " keywords
  let emotion_summary_list := dream_report.emotions.map emotion_summary
  let emotions_info :=
    if emotion_summary_list.isEmpty then "No specific emotions detected."
    else String.intercalate "; " emotion_summary_list
  llm (nightmare_system_prompt dream_text keywords_info emotions_info
        ++ "\n" ++ nightmare_human_message)

/-- Condensed template of `create_reconstructed_prompt_and_analysis`
(src/services/dream_analyzer_service.py lines 92-99), interpolating the
same three variables plus the format instructions. -/
def reconstruction_prompt (dream_text keywords_info emotions_info : String) : String :=
  "You are a wise and empathetic dream therapist. Reframe the keywords ["
    ++ keywords_info ++ "] into symbols of peace, healing, and hope."
    ++ " Original Nightmare Text (Korean): " ++ dream_text
    ++ " Emotion Breakdown: " ++ emotions_info
    ++ " Tasks: reconstructed prompt, Korean transformation summary, keyword mappings. "
    ++ format_instructions

/-- `DreamAnalyzerService.create_reconstructed_prompt_and_analysis`
(src/services/dream_analyzer_service.py lines 82-114): formats the keyword
and emotion context, invokes the LLM, parses the completion against
`ReconstructionOutput`, and returns the prompt, summary and mapping list
(`mapping.dict()` is the identity on the two fields).  A parse failure
raises (`Except.error`); no retry, no constraint beyond the schema. -/
def create_reconstructed_prompt_and_analysis (llm : String → Except String Json)
    (dream_text : String) (dream_report : Report) :
    Except String (String × String × List KeywordMapping) :=
  let keywords := dream_report.keywords
  let keywords_info :=
    if keywords.isEmpty then "제공된 특정 키워드 없음."
    else String.intercalate ", " keywords
  let emotion_summary_list := dream_report.emotions.map emotion_summary
  let emotions_info :=
    if emotion_summary_list.isEmpty then "감지된 특정 감정 없음."
    else String.intercalate "; " emotion_summary_list
  match llm (reconstruction_prompt dream_text keywords_info emotions_info) with
  | .error e => .error e
  | .ok j =>
      match parseReconstructionOutput j with
      | none => .error output_parse_failure_msg
      | some o => .ok (o.reconstructed_prompt, o.transformation_summary, o.keyword_mappings)

/-- `ReportGeneratorService._format_docs`
(src/services/report_generator_service.py lines 39-41). -/
def format_docs (docs : List String) : String := String.intercalate "\n\n" docs

/-- Condensed RAG prompt template of `generate_report_with_rag`
(src/services/report_generator_service.py lines 54-67). -/
def rag_prompt (context dream_text : String) : String :=
  "You are an AI dream analyst who is an expert in IRT and dream symbolism."
    ++ " All parts of the report MUST be in Korean. " ++ format_instructions
    ++ " [Professional Knowledge] " ++ context
    ++ " [Dream Text] " ++ dream_text

/-- The degraded report `generate_report_with_rag` builds in its
`except` clause (src/services/report_generator_service.py lines 84-87). -/
def fallback_report (err : String) : Report :=
  ⟨[], [], "RAG 리포트 생성 중 오류가 발생했습니다: " ++ err⟩

/-- `ReportGeneratorService.generate_report_with_rag`
(src/services/report_generator_service.py lines 43-87): raises ValueError
when no retriever was configured; otherwise retrieves context, invokes the
chain (retriever formatting, prompt, LLM, pydantic parser) and returns the
parsed report as a dictionary.  Every chain exception — LLM failure or
schema-parse failure alike — is caught and converted into a degraded report
whose summary carries the error text; nothing is re-raised to the caller. -/
def generate_report_with_rag (retriever : Option (String → List String))
    (llm : String → Except String Json) (dream_text : String) : Except String Report :=
  match retriever with
  | none => .error "RAG 리포트를 생성하려면 retriever 객체가 필요합니다."
  | some retrieve =>
      let context := format_docs (retrieve dream_text)
      .ok (match llm (rag_prompt context dream_text) with
        | .error e => fallback_report e
        | .ok j =>
            match parseReport j with
            | some r => r
            | none => fallback_report output_parse_failure_msg)

/-- The per-session state of src/app.py.  The first twelve fields are
exactly the keys of `session_defaults` (src/app.py line 99).  The last two
fields are history (ghost) variables added for the temporal claims: the
moderation verdict recorded for the processed audio of the session, and the
cumulative number of `generate_report_with_rag` invocations along the
trace; neither influences any transition. -/
structure SessionState where
  dream_text : String
  original_dream_text : String
  analysis_started : Bool
  audio_processed : Bool
  dream_report : Option Report
  nightmare_prompt : String
  reconstructed_prompt : String
  transformation_summary : String
  keyword_mappings : List KeywordMapping
  nightmare_image_url : String
  reconstructed_image_url : String
  nightmare_keywords : List String
  mod_flagged : Option Bool
  report_calls : Nat
deriving DecidableEq

/-- The `session_defaults` dictionary (src/app.py line 99), with the ghost
fields at their trace-initial values. -/
def session_defaults : SessionState :=
  { dream_text := ""
    original_dream_text := ""
    analysis_started := false
    audio_processed := false
    dream_report := none
    nightmare_prompt := ""
    reconstructed_prompt := ""
    transformation_summary := ""
    keyword_mappings := []
    nightmare_image_url := ""
    reconstructed_image_url := ""
    nightmare_keywords := []
    mod_flagged := none
    report_calls := 0 }

/-- `initialize_session_state` (src/app.py lines 104-106): resets every
`session_defaults` key.  The cumulative call counter is a trace-level ghost
and is preserved; the per-session moderation verdict is cleared. -/
def initialize_session_state (s : SessionState) : SessionState :=
  { session_defaults with report_calls := s.report_calls }

/-- The body of the audio-processing block once a transcript and a
moderation verdict are at hand (src/app.py lines 129-138), applied to the
freshly reset state: record the raw transcript, then either keep it as the
working `dream_text` (moderation clean) or clear `dream_text` (flagged),
and mark the audio processed. -/
def process_audio (stt : STTOutcome) (mod : ModOutcome) (s0 : SessionState) : SessionState :=
  let transcribed := transcribe_audio stt
  let safety := check_text_safety mod
  let s1 := { s0 with original_dream_text := transcribed }
  if safety.flagged = false then
    { s1 with dream_text := transcribed, audio_processed := true, mod_flagged := some false }
  else
    { s1 with dream_text := "", audio_processed := true, mod_flagged := some true }

/-- The user-visible and rerun-driven events of src/app.py.  External call
results travel with the event as oracles: the transcription and moderation
outcomes with the audio, the retriever and LLM responses with the steps
that consume them. -/
inductive Event where
  | newAudio (stt : STTOutcome) (mod : ModOutcome)
  | clickAnalyze
  | reportStep (retriever : String → List String) (llm : String → Except String Json)
  | clickNightmare (llm : String → String) (img : String → ImgOutcome)
  | clickReconstruct (llm : String → Except String Json) (img : String → ImgOutcome)

/-- One execution step of the Streamlit script for one event:

* `newAudio` — src/app.py lines 121-142: the block runs only while
  `audio_processed` is false; it then resets the session and processes the
  audio.  A later audio input finds `audio_processed` true and is skipped.
* `clickAnalyze` — lines 145-152: the button exists only when the raw
  transcript is shown, the working text is non-empty and analysis has not
  started; clicking sets `analysis_started`.
* `reportStep` — lines 157-166: runs when analysis is confirmed and no
  report exists; with a non-empty transcript it stores the generated
  report (the service returns `.ok` whenever a retriever is configured,
  which the app guarantees) and the keywords of the report; with an empty
  transcript it un-sets `analysis_started`.
* `clickNightmare` — lines 198-203: with a report present, builds the
  nightmare prompt and stores it with the image-generation result.
* `clickReconstruct` — lines 205-210: with a report present, runs the
  reconstruction chain; a parse failure raises out of the handler, so the
  state is unchanged; otherwise the three results and the image result are
  stored. -/
def step (e : Event) (s : SessionState) : SessionState :=
  match e with
  | .newAudio stt mod =>
      if s.audio_processed = true then s
      else process_audio stt mod (initialize_session_state s)
  | .clickAnalyze =>
      if s.original_dream_text ≠ "" ∧ s.dream_text ≠ "" ∧ s.analysis_started = false then
        { s with analysis_started := true }
      else s
  | .reportStep retriever llm =>
      if s.analysis_started = true ∧ s.dream_report = none then
        if s.original_dream_text ≠ "" then
          match generate_report_with_rag (some retriever) llm s.original_dream_text with
          | .ok r =>
              { s with dream_report := some r, nightmare_keywords := r.keywords,
                       report_calls := s.report_calls + 1 }
          | .error _ => { s with report_calls := s.report_calls + 1 }
        else { s with analysis_started := false }
      else s
  | .clickNightmare llm img =>
      match s.dream_report with
      | some rep =>
          let prompt := create_nightmare_prompt llm s.original_dream_text rep
          { s with nightmare_prompt := prompt,
                   nightmare_image_url := generate_image_from_prompt (img prompt) }
      | none => s
  | .clickReconstruct llm img =>
      match s.dream_report with
      | some rep =>
          match create_reconstructed_prompt_and_analysis llm s.original_dream_text rep with
          | .ok (p, summ, maps) =>
              { s with reconstructed_prompt := p, transformation_summary := summ,
                       keyword_mappings := maps,
                       reconstructed_image_url := generate_image_from_prompt (img p) }
          | .error _ => s
      | none => s

/-- States reachable from the initial session by app events. -/
inductive Reachable : SessionState → Prop where
  | init : Reachable session_defaults
  | next (e : Event) {s : SessionState} : Reachable s → Reachable (step e s)

/-- The scratch filesystem visible to the audio-processing block: whether
the temporary wav file exists, and the `audio_path` variable. -/
structure ScratchFS where
  tempExists : Bool
  audioPath : Option String
deriving DecidableEq

/-- The `finally` clause of src/app.py lines 139-141: remove the temporary
file when `audio_path` is set and the file exists. -/
def removeIfPresent (fs : ScratchFS) : ScratchFS :=
  match fs.audioPath with
  | some _ => if fs.tempExists = true then { fs with tempExists := false } else fs
  | none => fs

/-- The try/finally of src/app.py lines 123-141, focused on the resource
discipline (the session-state writes it performs are modelled in `step`).
The temporary file is created and `audio_path` bound (lines 125-127); the
body then runs the transcription and the moderation check, each of which
may return or raise; whatever the outcome of the body, the `finally` clause
runs last on the scratch state. -/
def audio_processing_block (transcribe : Except String String)
    (moderate : String → Except String ModResult) :
    Except String (String × ModResult) × ScratchFS :=
  let fs0 : ScratchFS := { tempExists := true, audioPath := some "temp.wav" }
  let run : Except String (String × ModResult) × ScratchFS :=
    match transcribe with
    | .error e => (.error e, fs0)
    | .ok t =>
        match moderate t with
        | .error e => (.error e, fs0)
        | .ok m => (.ok (t, m), fs0)
  (run.1, removeIfPresent run.2)

/-- The inductive invariant of the session machine used by the trace
claims: the working text is empty or equals the raw transcript; a
non-empty working text, a confirmed analysis or a past generator call each
certify that the moderation verdict of the session was clean; and each of those
also certifies the audio was processed. -/
def SessionInv (s : SessionState) : Prop :=
  (s.dream_text = "" ∨ s.dream_text = s.original_dream_text) ∧
  (s.dream_text ≠ "" → s.mod_flagged = some false) ∧
  (s.analysis_started = true → s.mod_flagged = some false) ∧
  (s.report_calls ≠ 0 → s.mod_flagged = some false) ∧
  (s.report_calls ≠ 0 → s.audio_processed = true) ∧
  (s.analysis_started = true → s.audio_processed = true) ∧
  (s.dream_text ≠ "" → s.audio_processed = true)

/-- A concrete trace reaching the NightmareReady stage: clean audio,
confirmed analysis, a parsed report, then a nightmare image. -/
def nightmare_ready_state : SessionState :=
  step (Event.clickNightmare (fun _ => "a dark forest, oppressive fog")
        (fun _ => ImgOutcome.ok "https://img.example/nightmare.png"))
    (step (Event.reportStep (fun _ => ["지식 문단"])
            (fun _ => Except.ok (encodeReport ⟨[], ["숲"], "분석 요약"⟩)))
      (step Event.clickAnalyze
        (step (Event.newAudio (STTOutcome.ok "어두운 숲을 걷는 꿈") (ModOutcome.ok false []))
          session_defaults)))

/-- A concrete trace in which the report-generation chain fails (the LLM
call raises) after the user confirmed analysis. -/
def failed_report_state : SessionState :=
  step (Event.reportStep (fun _ => []) (fun _ => Except.error "APIConnectionError"))
    (step Event.clickAnalyze
      (step (Event.newAudio (STTOutcome.ok "어두운 숲") (ModOutcome.ok false []))
        session_defaults))

/-- A concrete trace in which transcription fails (audio file not found)
and moderation does not flag the resulting failure message. -/
def failure_transcript_state : SessionState :=
  step (Event.newAudio STTOutcome.fileNotFound (ModOutcome.ok false [])) session_defaults

/-- Continuation of `failure_transcript_state`: the user confirms analysis
of the failure text and the report step runs. -/
def failure_report_state : SessionState :=
  step (Event.reportStep (fun _ => []) (fun _ => Except.ok (encodeReport ⟨[], ["오류"], "분석"⟩)))
    (step Event.clickAnalyze failure_transcript_state)

/-- Parsing inverts encoding for keyword mappings. -/
theorem parseKeywordMapping_encode (m : KeywordMapping) :
    parseKeywordMapping (encodeMapping m) = some m := rfl

/-- Parsing inverts encoding for keyword-mapping lists of any length. -/
theorem parseMappingList_encode (ms : List KeywordMapping) :
    parseMappingList (ms.map encodeMapping) = some ms := by
  induction ms with
  | nil => rfl
  | cons m ms ih => simp [parseMappingList, parseKeywordMapping_encode, ih]

/-- Parsing inverts encoding for whole reconstruction outputs. -/
theorem parseReconstructionOutput_encode (o : ReconstructionOutput) :
    parseReconstructionOutput (encodeRecon o) = some o := by
  show (match parseMappingList (o.keyword_mappings.map encodeMapping) with
        | some ms => some ⟨o.reconstructed_prompt, o.transformation_summary, ms⟩
        | none => none) = some o
  rw [parseMappingList_encode]

/-- Parsing inverts encoding for emotions. -/
theorem parseEmotion_encode (e : Emotion) : parseEmotion (encodeEmotion e) = some e := rfl

/-- Parsing inverts encoding for emotion lists. -/
theorem parseEmotionList_encode (es : List Emotion) :
    parseEmotionList (es.map encodeEmotion) = some es := by
  induction es with
  | nil => rfl
  | cons e es ih => simp [parseEmotionList, parseEmotion_encode, ih]

/-- Parsing inverts encoding for keyword-string lists. -/
theorem parseStringList_encode (ss : List String) :
    parseStringList (ss.map Json.str) = some ss := by
  induction ss with
  | nil => rfl
  | cons s ss ih => simp [parseStringList, asStr, ih]

/-- Parsing inverts encoding for whole reports. -/
theorem parseReport_encode (r : Report) : parseReport (encodeReport r) = some r := by
  show (match parseEmotionList (r.emotions.map encodeEmotion),
              parseStringList (r.keywords.map Json.str) with
        | some es, some ks => some ⟨es, ks, r.analysis_summary⟩
        | _, _ => none) = some r
  rw [parseEmotionList_encode, parseStringList_encode]

/-- The session invariant holds at the initial state. -/
theorem sessionInv_defaults : SessionInv session_defaults := by
  unfold SessionInv session_defaults
  simp

/-- The session invariant is preserved by every app event. -/
theorem sessionInv_step (e : Event) (s : SessionState) (h : SessionInv s) :
    SessionInv (step e s) := by
  obtain ⟨h1, h2, h3, h4, h5, h6, h7⟩ := h
  cases e with
  | newAudio stt mod =>
      by_cases hap : s.audio_processed = true
      · simpa [step, hap] using ⟨h1, h2, h3, h4, h5, h6, h7⟩
      · have hc : s.report_calls = 0 := by
          by_contra hne
          exact hap (h5 hne)
        by_cases hf : (check_text_safety mod).flagged = false
        · simp [step, hap, process_audio, initialize_session_state, session_defaults, hf,
                SessionInv]
        · simp [step, hap, process_audio, initialize_session_state, session_defaults, hf,
                SessionInv, hc]
  | clickAnalyze =>
      by_cases hg : s.original_dream_text ≠ "" ∧ s.dream_text ≠ "" ∧ s.analysis_started = false
      · simp only [step, if_pos hg]
        exact ⟨h1, h2, fun _ => h2 hg.2.1, h4, h5, fun _ => h7 hg.2.1, h7⟩
      · simp only [step, if_neg hg]
        exact ⟨h1, h2, h3, h4, h5, h6, h7⟩
  | reportStep retr llm =>
      by_cases hg : s.analysis_started = true ∧ s.dream_report = none
      · by_cases ho : s.original_dream_text ≠ ""
        · simp only [step, if_pos hg, if_pos ho]
          cases generate_report_with_rag (some retr) llm s.original_dream_text with
          | ok r => exact ⟨h1, h2, h3, fun _ => h3 hg.1, fun _ => h6 hg.1, h6, h7⟩
          | error e => exact ⟨h1, h2, h3, fun _ => h3 hg.1, fun _ => h6 hg.1, h6, h7⟩
        · simp only [step, if_pos hg, if_neg ho]
          exact ⟨h1, h2, by simp, h4, h5, by simp, h7⟩
      · simp only [step, if_neg hg]
        exact ⟨h1, h2, h3, h4, h5, h6, h7⟩
  | clickNightmare llm img =>
      simp only [step]
      cases s.dream_report with
      | none => exact ⟨h1, h2, h3, h4, h5, h6, h7⟩
      | some rep => exact ⟨h1, h2, h3, h4, h5, h6, h7⟩
  | clickReconstruct llm img =>
      simp only [step]
      cases s.dream_report with
      | none => exact ⟨h1, h2, h3, h4, h5, h6, h7⟩
      | some rep =>
          dsimp only
          cases create_reconstructed_prompt_and_analysis llm s.original_dream_text rep with
          | ok t =>
              obtain ⟨p, summ, maps⟩ := t
              exact ⟨h1, h2, h3, h4, h5, h6, h7⟩
          | error e =>
              exact ⟨h1, h2, h3, h4, h5, h6, h7⟩

/-- The session invariant holds in every reachable state. -/
theorem sessionInv_reachable (s : SessionState) (h : Reachable s) : SessionInv s := by
  induction h with
  | init => exact sessionInv_defaults
  | next e hr ih => exact sessionInv_step e _ ih

/-- Accounting of generator invocations: a step either leaves the call
counter unchanged, or increments it by one, and an increment happens only
from a state with analysis confirmed, no report stored yet and a non-empty
transcript. -/
theorem report_calls_step (s : SessionState) (e : Event) :
    (step e s).report_calls = s.report_calls ∨
    ((step e s).report_calls = s.report_calls + 1 ∧ s.analysis_started = true ∧
      s.dream_report = none ∧ s.original_dream_text ≠ "") := by
  cases e with
  | newAudio stt mod =>
      by_cases hap : s.audio_processed = true
      · simp [step, hap]
      · by_cases hf : (check_text_safety mod).flagged = false
        · simp [step, hap, process_audio, initialize_session_state, session_defaults, hf]
        · simp [step, hap, process_audio, initialize_session_state, session_defaults, hf]
  | clickAnalyze =>
      by_cases hg : s.original_dream_text ≠ "" ∧ s.dream_text ≠ "" ∧ s.analysis_started = false
      · simp [step, if_pos hg]
      · simp [step, if_neg hg]
  | reportStep retr llm =>
      by_cases hg : s.analysis_started = true ∧ s.dream_report = none
      · by_cases ho : s.original_dream_text ≠ ""
        · simp only [step, if_pos hg, if_pos ho]
          cases generate_report_with_rag (some retr) llm s.original_dream_text with
          | ok r => exact Or.inr ⟨rfl, hg.1, hg.2, ho⟩
          | error e => exact Or.inr ⟨rfl, hg.1, hg.2, ho⟩
        · simp [step, if_pos hg, if_neg ho]
      · simp [step, if_neg hg]
  | clickNightmare llm img =>
      simp only [step]
      cases s.dream_report with
      | none => exact Or.inl rfl
      | some rep => exact Or.inl rfl
  | clickReconstruct llm img =>
      simp only [step]
      cases s.dream_report with
      | none => exact Or.inl rfl
      | some rep =>
          dsimp only
          cases create_reconstructed_prompt_and_analysis llm s.original_dream_text rep with
          | ok t =>
              obtain ⟨p, summ, maps⟩ := t
              exact Or.inl rfl
          | error e => exact Or.inl rfl

/-- C1 counterexample.  The claim states that every result of
`create_reconstructed_prompt_and_analysis` carries between 3 and 5 keyword
mappings, each with `transformed` different from `original`.  The pydantic
schema enforces neither: a structurally valid LLM response carrying a
single identity mapping (늑대 to 늑대) passes validation and is returned
unchanged, violating both the length bound and the distinctness
requirement. -/
theorem reconstruction_mappings_claim_counterexample :
    create_reconstructed_prompt_and_analysis
        (fun _ => Except.ok (Json.obj
          [("reconstructed_prompt", Json.str "a peaceful meadow"),
           ("transformation_summary", Json.str "변환 요약"),
           ("keyword_mappings", Json.arr
             [Json.obj [("original", Json.str "늑대"), ("transformed", Json.str "늑대")]])]))
        "늑대에게 쫓기는 꿈" ⟨[], ["늑대"], "늑대 악몽"⟩ =
      Except.ok ("a peaceful meadow", "변환 요약", [⟨"늑대", "늑대"⟩]) ∧
    ¬ ((3 ≤ ([⟨"늑대", "늑대"⟩] : List KeywordMapping).length ∧
          ([⟨"늑대", "늑대"⟩] : List KeywordMapping).length ≤ 5) ∧
        ∀ m ∈ ([⟨"늑대", "늑대"⟩] : List KeywordMapping), m.transformed ≠ m.original) := by
  constructor
  · rfl
  · decide

/-- C1 amended.  The 3-5 length bound and the distinctness of
`transformed` from `original` live only in the schema field descriptions;
validation accepts any structurally well-formed output.  For every list of
keyword mappings whatsoever — any length, identity mappings included —
some schema-valid LLM response makes
`create_reconstructed_prompt_and_analysis` return exactly that list. -/
theorem reconstruction_mappings_unvalidated (ms : List KeywordMapping)
    (p summ dream_text : String) (rep : Report) :
    create_reconstructed_prompt_and_analysis
        (fun _ => Except.ok (encodeRecon ⟨p, summ, ms⟩)) dream_text rep =
      Except.ok (p, summ, ms) := by
  show (match parseReconstructionOutput (encodeRecon ⟨p, summ, ms⟩) with
        | none => (Except.error output_parse_failure_msg :
            Except String (String × String × List KeywordMapping))
        | some o => Except.ok (o.reconstructed_prompt, o.transformation_summary, o.keyword_mappings)) =
      Except.ok (p, summ, ms)
  rw [parseReconstructionOutput_encode]

/-- C3 counterexample.  The claim states that every report returned
successfully by `generate_report_with_rag` has all emotion scores in
[0, 1], non-empty emotion labels, and non-empty keywords whenever emotions
are non-empty.  The pydantic schema checks types only: a response with
score 3/2, an empty label and an empty keyword list next to a non-empty
emotion list parses successfully and is returned as is. -/
theorem report_schema_claim_counterexample :
    generate_report_with_rag (some (fun _ => []))
        (fun _ => Except.ok (Json.obj
          [("emotions", Json.arr
             [Json.obj [("emotion", Json.str ""), ("score", Json.num (3/2))]]),
           ("keywords", Json.arr []),
           ("analysis_summary", Json.str "요약")]))
        "어두운 꿈" =
      Except.ok ⟨[⟨"", 3/2⟩], [], "요약"⟩ ∧
    ¬ ((∀ e ∈ ([⟨"", 3/2⟩] : List Emotion), 0 ≤ e.score ∧ e.score ≤ 1 ∧ e.emotion ≠ "") ∧
        (([⟨"", 3/2⟩] : List Emotion) ≠ [] → ([] : List String) ≠ [])) ∧
    ¬ ((3 : ℚ)/2 ≤ 1) := by
  refine ⟨rfl, ?_, by norm_num⟩
  rintro ⟨hall, himp⟩
  exact (hall ⟨"", 3/2⟩ (by simp)).2.2 rfl

/-- C3 amended.  `generate_report_with_rag` enforces only the structural
schema (typed fields); every structurally valid report — scores outside
[0, 1], empty labels and empty keywords beside non-empty emotions
included — is returned unchanged by the success path. -/
theorem report_schema_types_only (r : Report) (dream_text : String)
    (retrieve : String → List String) :
    generate_report_with_rag (some retrieve) (fun _ => Except.ok (encodeReport r)) dream_text =
      Except.ok r := by
  show Except.ok (match parseReport (encodeReport r) with
        | some r0 => r0
        | none => fallback_report output_parse_failure_msg) = Except.ok r
  rw [parseReport_encode]

/-- C2 (confirmed).  In every reachable session state, if moderation
flagged the transcribed text of the session then the working `dream_text`
is empty, `generate_report_with_rag` was never invoked, and no step can
invoke it; moreover any step that does invoke the generator starts from a
state whose recorded moderation verdict is a pass. -/
theorem moderation_gate_blocks_report_generation (s : SessionState) (e : Event)
    (h : Reachable s) :
    (s.mod_flagged = some true →
      s.dream_text = "" ∧ s.report_calls = 0 ∧ (step e s).report_calls = 0) ∧
    (s.report_calls < (step e s).report_calls → s.mod_flagged = some false) := by
  obtain ⟨h1, h2, h3, h4, h5, h6, h7⟩ := sessionInv_reachable s h
  have hstep := report_calls_step s e
  constructor
  · intro hflag
    have hdt : s.dream_text = "" := by
      by_contra hne
      rw [h2 hne] at hflag
      exact Bool.noConfusion (Option.some.inj hflag)
    have hrc : s.report_calls = 0 := by
      by_contra hne
      rw [h4 hne] at hflag
      exact Bool.noConfusion (Option.some.inj hflag)
    refine ⟨hdt, hrc, ?_⟩
    rcases hstep with hsame | ⟨_, hstart, _, _⟩
    · rw [hsame, hrc]
    · rw [h3 hstart] at hflag
      exact absurd (Option.some.inj hflag) Bool.noConfusion
  · intro hlt
    rcases hstep with hsame | ⟨_, hstart, _, _⟩
    · rw [hsame] at hlt
      exact absurd hlt (lt_irrefl _)
    · exact h3 hstart

/-- C8 (confirmed).  While `dream_report` is populated, no event invokes
the report generator again: the invocation counter is unchanged by every
step taken from such a state (a reset is the only way to clear
`dream_report`). -/
theorem report_generator_at_most_once (s : SessionState) (e : Event)
    (h : s.dream_report ≠ none) :
    (step e s).report_calls = s.report_calls := by
  rcases report_calls_step s e with hsame | ⟨_, _, hnone, _⟩
  · exact hsame
  · exact absurd hnone h

/-- C9 (confirmed).  When the moderation API call raises,
`check_text_safety` returns a flagged result (fail closed), so processing
audio with a failing moderation service clears the working `dream_text`,
records the verdict as flagged and leaves analysis unconfirmed — exactly
as a policy violation would. -/
theorem moderation_error_fail_closed (err : String) (stt : STTOutcome) (s : SessionState)
    (h : s.audio_processed = false) :
    (check_text_safety (ModOutcome.exn err)).flagged = true ∧
    (step (Event.newAudio stt (ModOutcome.exn err)) s).dream_text = "" ∧
    (step (Event.newAudio stt (ModOutcome.exn err)) s).mod_flagged = some true ∧
    (step (Event.newAudio stt (ModOutcome.exn err)) s).analysis_started = false := by
  refine ⟨rfl, ?_, ?_, ?_⟩ <;>
    simp [step, h, process_audio, check_text_safety, initialize_session_state, session_defaults]

/-- C10 (confirmed).  In every reachable session state the working
`dream_text` is either the empty string or equal to the displayed raw
transcript `original_dream_text`. -/
theorem dream_text_empty_or_transcript (s : SessionState) (h : Reachable s) :
    s.dream_text = "" ∨ s.dream_text = s.original_dream_text :=
  (sessionInv_reachable s h).1

/-- C4 counterexample.  The claim states that a report-generation
failure signals a `ReportGenerationError`, the state does not advance, and
`analysis_started` is un-set for retry.  In the code the failure is
swallowed: after a failing chain the session stores the degraded fallback
report as `dream_report` (the state advances) and `analysis_started`
remains set. -/
theorem report_failure_advances_state_counterexample :
    failed_report_state.dream_report = some (fallback_report "APIConnectionError") ∧
    failed_report_state.analysis_started = true ∧
    (fallback_report "APIConnectionError").analysis_summary =
      "RAG 리포트 생성 중 오류가 발생했습니다: APIConnectionError" := by
  refine ⟨rfl, rfl, rfl⟩

/-- C4 amended.  On chain failure `generate_report_with_rag` raises
nothing: it returns a degraded report with empty emotions and keywords and
the error text in the summary; the report step stores that degraded report
as `dream_report` — advancing the session to the report-ready stage — and
leaves `analysis_started` set.  (`analysis_started` is un-set only in the
separate branch where the transcript is empty.) -/
theorem report_failure_returns_degraded_report (s : SessionState)
    (retr : String → List String) (err : String)
    (h1 : s.analysis_started = true) (h2 : s.dream_report = none)
    (h3 : s.original_dream_text ≠ "") :
    generate_report_with_rag (some retr) (fun _ => Except.error err) s.original_dream_text =
      Except.ok (fallback_report err) ∧
    step (Event.reportStep retr (fun _ => Except.error err)) s =
      { s with dream_report := some (fallback_report err),
               nightmare_keywords := [],
               report_calls := s.report_calls + 1 } ∧
    (step (Event.reportStep retr (fun _ => Except.error err)) s).analysis_started = true := by
  have hg : s.analysis_started = true ∧ s.dream_report = none := ⟨h1, h2⟩
  refine ⟨rfl, ?_, ?_⟩
  · simp only [step, if_pos hg, if_pos h3]
    rfl
  · simp only [step, if_pos hg, if_pos h3]
    exact h1

/-- C5 counterexample.  The claim states that a new audio input always
hard-resets the session.  After the first audio is processed,
`audio_processed` stays true and is never cleared, so from a
NightmareReady state a new audio input leaves the session completely
unchanged: the old transcript, report and image survive and the new audio
is never processed. -/
theorem new_audio_after_processing_ignored_counterexample :
    step (Event.newAudio (STTOutcome.ok "새로운 악몽") (ModOutcome.ok false []))
        nightmare_ready_state =
      nightmare_ready_state ∧
    nightmare_ready_state.nightmare_image_url = "https://img.example/nightmare.png" ∧
    nightmare_ready_state.dream_report = some ⟨[], ["숲"], "분석 요약"⟩ ∧
    nightmare_ready_state.original_dream_text = "어두운 숲을 걷는 꿈" := by
  refine ⟨rfl, rfl, rfl, rfl⟩

/-- C5 amended.  The hard reset runs only when `audio_processed` is
false: in that case the arrival of audio first restores every
`session_defaults` key and then processes the new input; in any state
with `audio_processed` true (every state after the first processed audio
of the session) a new audio input is ignored and the state is
unchanged. -/
theorem new_audio_reset_gated_by_audio_processed (s : SessionState)
    (stt : STTOutcome) (mod : ModOutcome) :
    (s.audio_processed = true → step (Event.newAudio stt mod) s = s) ∧
    (s.audio_processed = false →
      step (Event.newAudio stt mod) s = process_audio stt mod (initialize_session_state s) ∧
      initialize_session_state s = { session_defaults with report_calls := s.report_calls }) := by
  constructor
  · intro h
    simp [step, h]
  · intro h
    refine ⟨?_, rfl⟩
    simp [step, h]

/-- C6 counterexample.  The claim states that after a transcription
failure the pipeline does not advance and no moderation pass of the
failure text leads to report generation.  In the code the failure message
is an ordinary transcript: with a clean moderation verdict it becomes the
working `dream_text`, the user can confirm analysis, and the report
generator is invoked on the failure text (one recorded call, report
stored). -/
theorem transcription_failure_reaches_report_counterexample :
    failure_transcript_state.original_dream_text = "오디오 파일을 찾을 수 없습니다." ∧
    failure_transcript_state.dream_text = "오디오 파일을 찾을 수 없습니다." ∧
    failure_report_state.report_calls = 1 ∧
    failure_report_state.dream_report = some ⟨[], ["오류"], "분석"⟩ := by
  refine ⟨rfl, rfl, rfl, rfl⟩

/-- C6 amended.  On transcription failure the failure text is recorded
as the transcript and is treated like any transcript: it is submitted to
moderation, and when moderation does not flag it the failure text becomes
the working `dream_text`, from which analysis and report generation can
proceed. -/
theorem transcription_failure_text_enters_pipeline (s : SessionState)
    (stt : STTOutcome) (mod : ModOutcome) (h : s.audio_processed = false) :
    (step (Event.newAudio stt mod) s).original_dream_text = transcribe_audio stt ∧
    ((check_text_safety mod).flagged = false →
      (step (Event.newAudio stt mod) s).dream_text = transcribe_audio stt) := by
  constructor
  · by_cases hf : (check_text_safety mod).flagged = false <;>
      simp [step, h, process_audio, initialize_session_state, session_defaults, hf]
  · intro hf
    simp [step, h, process_audio, initialize_session_state, session_defaults, hf]

/-- C7 (confirmed).  For every audio-processing invocation, whatever the
transcription and moderation calls do — return or raise — the temporary
audio file created for the call has been removed when the block
finishes. -/
theorem temp_audio_file_always_removed (transcribe : Except String String)
    (moderate : String → Except String ModResult) :
    (audio_processing_block transcribe moderate).2.tempExists = false := by
  cases transcribe with
  | error e => rfl
  | ok t =>
      cases h : moderate t with
      | error e => simp [audio_processing_block, removeIfPresent, h]
      | ok m => simp [audio_processing_block, removeIfPresent, h]

/-- Witness for C2 at a concrete reachable flagged state. -/
theorem moderation_gate_blocks_report_generation_witness :
    ((step (Event.newAudio (STTOutcome.ok "위험한 꿈") (ModOutcome.ok true ["violence"]))
        session_defaults).mod_flagged = some true →
      (step (Event.newAudio (STTOutcome.ok "위험한 꿈") (ModOutcome.ok true ["violence"]))
        session_defaults).dream_text = "" ∧
      (step (Event.newAudio (STTOutcome.ok "위험한 꿈") (ModOutcome.ok true ["violence"]))
        session_defaults).report_calls = 0 ∧
      (step Event.clickAnalyze
        (step (Event.newAudio (STTOutcome.ok "위험한 꿈") (ModOutcome.ok true ["violence"]))
          session_defaults)).report_calls = 0) ∧
    ((step (Event.newAudio (STTOutcome.ok "위험한 꿈") (ModOutcome.ok true ["violence"]))
        session_defaults).report_calls <
        (step Event.clickAnalyze
          (step (Event.newAudio (STTOutcome.ok "위험한 꿈") (ModOutcome.ok true ["violence"]))
            session_defaults)).report_calls →
      (step (Event.newAudio (STTOutcome.ok "위험한 꿈") (ModOutcome.ok true ["violence"]))
        session_defaults).mod_flagged = some false) :=
  moderation_gate_blocks_report_generation _ Event.clickAnalyze
    (Reachable.next _ Reachable.init)

/-- Witness for C8 at a concrete state with a stored report. -/
theorem report_generator_at_most_once_witness :
    (step Event.clickAnalyze
        ({ session_defaults with dream_report := some ⟨[], [], "요약"⟩ } : SessionState)).report_calls =
      ({ session_defaults with dream_report := some ⟨[], [], "요약"⟩ } : SessionState).report_calls :=
  report_generator_at_most_once _ Event.clickAnalyze (by decide)

/-- Witness for C9 at a concrete moderation-exception input. -/
theorem moderation_error_fail_closed_witness :
    (check_text_safety (ModOutcome.exn "timeout")).flagged = true ∧
    (step (Event.newAudio (STTOutcome.ok "꿈 이야기") (ModOutcome.exn "timeout"))
      session_defaults).dream_text = "" ∧
    (step (Event.newAudio (STTOutcome.ok "꿈 이야기") (ModOutcome.exn "timeout"))
      session_defaults).mod_flagged = some true ∧
    (step (Event.newAudio (STTOutcome.ok "꿈 이야기") (ModOutcome.exn "timeout"))
      session_defaults).analysis_started = false :=
  moderation_error_fail_closed "timeout" (STTOutcome.ok "꿈 이야기") session_defaults rfl

/-- Witness for C10 at a concrete reachable state. -/
theorem dream_text_empty_or_transcript_witness :
    (step (Event.newAudio (STTOutcome.ok "밤의 꿈") (ModOutcome.ok false []))
      session_defaults).dream_text = "" ∨
    (step (Event.newAudio (STTOutcome.ok "밤의 꿈") (ModOutcome.ok false []))
        session_defaults).dream_text =
      (step (Event.newAudio (STTOutcome.ok "밤의 꿈") (ModOutcome.ok false []))
        session_defaults).original_dream_text :=
  dream_text_empty_or_transcript _ (Reachable.next _ Reachable.init)

/-- Witness for the amended C4 at a concrete confirmed-analysis state. -/
theorem report_failure_returns_degraded_report_witness :
    generate_report_with_rag (some (fun _ => [])) (fun _ => Except.error "boom")
        ({ session_defaults with
            original_dream_text := "악몽 이야기"
            dream_text := "악몽 이야기"
            analysis_started := true
            audio_processed := true } : SessionState).original_dream_text =
      Except.ok (fallback_report "boom") ∧
    step (Event.reportStep (fun _ => []) (fun _ => Except.error "boom"))
        ({ session_defaults with
            original_dream_text := "악몽 이야기"
            dream_text := "악몽 이야기"
            analysis_started := true
            audio_processed := true } : SessionState) =
      { ({ session_defaults with
            original_dream_text := "악몽 이야기"
            dream_text := "악몽 이야기"
            analysis_started := true
            audio_processed := true } : SessionState) with
          dream_report := some (fallback_report "boom"),
          nightmare_keywords := [],
          report_calls := ({ session_defaults with
              original_dream_text := "악몽 이야기"
              dream_text := "악몽 이야기"
              analysis_started := true
              audio_processed := true } : SessionState).report_calls + 1 } ∧
    (step (Event.reportStep (fun _ => []) (fun _ => Except.error "boom"))
        ({ session_defaults with
            original_dream_text := "악몽 이야기"
            dream_text := "악몽 이야기"
            analysis_started := true
            audio_processed := true } : SessionState)).analysis_started =
      true :=
  report_failure_returns_degraded_report _ _ "boom" rfl rfl (by decide)

/-- Witness for the amended C5 at concrete processed and unprocessed
states. -/
theorem new_audio_reset_gated_by_audio_processed_witness :
    step (Event.newAudio (STTOutcome.ok "다음 꿈") (ModOutcome.ok false []))
        ({ session_defaults with
            audio_processed := true
            original_dream_text := "이전 꿈" } : SessionState) =
      ({ session_defaults with
          audio_processed := true
          original_dream_text := "이전 꿈" } : SessionState) ∧
    step (Event.newAudio (STTOutcome.ok "다음 꿈") (ModOutcome.ok false [])) session_defaults =
      process_audio (STTOutcome.ok "다음 꿈") (ModOutcome.ok false [])
        (initialize_session_state session_defaults) :=
  ⟨(new_audio_reset_gated_by_audio_processed _ _ _).1 rfl,
   ((new_audio_reset_gated_by_audio_processed _ _ _).2 rfl).1⟩

/-- Witness for the amended C6 at a concrete failed transcription. -/
theorem transcription_failure_text_enters_pipeline_witness :
    (step (Event.newAudio STTOutcome.fileNotFound (ModOutcome.ok false []))
        session_defaults).original_dream_text =
      transcribe_audio STTOutcome.fileNotFound ∧
    ((check_text_safety (ModOutcome.ok false [])).flagged = false →
      (step (Event.newAudio STTOutcome.fileNotFound (ModOutcome.ok false []))
          session_defaults).dream_text =
        transcribe_audio STTOutcome.fileNotFound) :=
  transcription_failure_text_enters_pipeline session_defaults STTOutcome.fileNotFound
    (ModOutcome.ok false []) rfl
